import Mathlib

/-!
# Verification of the Verilator regression-test orchestration engine

The repository fragment contains four declarative test scripts
(`t_no_trace_top.py`, `t_opt_localize_max_size_1.py`, `t_sarif_output.py`,
`t_trace_abort_saif.py`) that drive the orchestration engine described by
the specification: scenario resolution, the lint/compile/execute pipeline
with expected-failure semantics, structured artifact comparison and the
scheduler/aggregator.  The engine itself (the `vltest_bootstrap` driver) is
not part of the fragment, so its operations are modelled here from the
specification's component contracts, and the four test scripts are embedded
as concrete `TestCase` values.
-/

namespace VlTest

/-- One phase of a test's pipeline (lint, compile, build, execute). -/
inductive StageKind
  | lint
  | compile
  | build
  | execute
deriving DecidableEq, Repr

/-- A stage specification: its kind together with the declared
expected-failure marker (`test.execute(fails=True)` sets it). -/
structure StageSpec where
  kind : StageKind
  expectsFail : Bool
deriving DecidableEq, Repr

/-- The result the Toolchain Invoker reports for one subprocess run:
a normal exit with a status, a timeout, or a failure to start at all. -/
inductive InvokeResult
  | exited (status : Nat)
  | timeout
  | startFailure
deriving DecidableEq, Repr

/-- Classification of one pipeline stage, from the error-handling
taxonomy: expected failure is treated as success; unexpected stage
failure covers a bad exit status or a timeout; infrastructure error
covers a subprocess that could not start. -/
inductive StageClass
  | SUCCESS
  | EXPECTED_FAILURE
  | UNEXPECTED_STAGE_FAILURE
  | INFRASTRUCTURE_ERROR
deriving DecidableEq, Repr

/-- Modelled from the spec: the Toolchain Invoker's stage classification
(the invoker itself is not in the fragment).  "treat nonzero exit as
failure unless the stage was declared expected-to-fail, in which case
nonzero exit is the success condition and zero exit is itself a failure";
a timeout is an unexpected stage failure; a subprocess that could not
start is an infrastructure error. -/
def classifyStage (expectsFail : Bool) (r : InvokeResult) : StageClass :=
  match r with
  | .startFailure => .INFRASTRUCTURE_ERROR
  | .timeout => .UNEXPECTED_STAGE_FAILURE
  | .exited status =>
    if expectsFail then
      if status = 0 then .UNEXPECTED_STAGE_FAILURE else .EXPECTED_FAILURE
    else
      if status = 0 then .SUCCESS else .UNEXPECTED_STAGE_FAILURE

/-- Terminal state of one scenario's pipeline: `DONE` when every stage
succeeded or an expected failure terminated the pipeline by design,
`ABORTED` when a stage failed unexpectedly. -/
inductive PipeEnd
  | DONE
  | ABORTED
deriving DecidableEq, Repr

/-- Modelled from the spec: the Pipeline Stage Sequencer (not in the
fragment).  Stages run in their declared order; a later stage runs only if
the prior stage succeeded; if a stage's failure was itself the declared
expected outcome the pipeline terminates there by design (`DONE`, not an
error) and no further stage executes; an unexpected stage failure or an
infrastructure error aborts the pipeline.  `invoke` is the Toolchain
Invoker's observed result per stage kind.  Returns the list of stages that
actually ran with their classifications, and the terminal state. -/
def runPipeline (invoke : StageKind → InvokeResult) :
    List StageSpec → List (StageSpec × StageClass) × PipeEnd
  | [] => ([], .DONE)
  | s :: rest =>
    let c := classifyStage s.expectsFail (invoke s.kind)
    match c with
    | .SUCCESS =>
      let (rs, e) := runPipeline invoke rest
      ((s, c) :: rs, e)
    | .EXPECTED_FAILURE => ([(s, c)], .DONE)
    | .UNEXPECTED_STAGE_FAILURE => ([(s, c)], .ABORTED)
    | .INFRASTRUCTURE_ERROR => ([(s, c)], .ABORTED)

/-- Pass/fail classification produced by the Artifact Comparator:
`pass`, `NO_MATCH` (a text pattern never matched), `MISMATCH`
(a content divergence was found). -/
inductive ComparisonResult
  | pass
  | NO_MATCH
  | MISMATCH
deriving DecidableEq, Repr

/-- Whether a comparison counts as a pass. -/
def ComparisonResult.isPass : ComparisonResult → Bool
  | .pass => true
  | _ => false

/-- Modelled from the spec: the text pattern extraction comparator
(`test.file_grep`; the comparator implementation and the external regex
engine are not in the fragment).  `capture` is the regex engine's outcome
on the artifact file: `none` when the regular expression matches nowhere,
`some v` when it matches with `v` the value of the specified capture
group.  `expected`: when an expected literal value is given, assert that
the captured value equals it; when none is given, mere existence of a
match is the pass condition.  Fails with `NO_MATCH` if the pattern never
matches, `MISMATCH` if the captured value differs. -/
def file_grep (capture : Option String) (expected : Option String) :
    ComparisonResult :=
  match capture with
  | none => .NO_MATCH
  | some v =>
    match expected with
    | none => .pass
    | some e => if v = e then .pass else .MISMATCH

/-- A parsed waveform trace: run-specific metadata embedded in the header
(the wall-clock date stamp and the tool version string), the declared
signal hierarchy, and the full sequence of (time, signal, value) change
events at simulated times. -/
structure VcdTrace where
  date : String
  version : String
  hierarchy : List String
  events : List (Nat × String × String)
deriving DecidableEq, Repr

/-- Modelled from the spec: the structured waveform-trace equality
comparator (`test.vcd_identical`; not in the fragment).  Compares the
declared signal hierarchy and the full sequence of (time, signal, value)
change events; ignores run-to-run non-determinism in the absolute
wall-clock-derived header metadata; fails at a structural difference. -/
def vcd_identical (a b : VcdTrace) : ComparisonResult :=
  if a.hierarchy = b.hierarchy ∧ a.events = b.events then .pass
  else .MISMATCH

/-- The aggregate toggle/duration counters recorded per signal in a
switching-activity summary: time at 0, time at 1, time at X, and the
toggle count. -/
structure SaifCounters where
  t0 : Nat
  t1 : Nat
  tx : Nat
  tc : Nat
deriving DecidableEq, Repr

/-- A parsed switching-activity summary: per-signal counter entries. -/
abbrev SaifActivity := List (String × SaifCounters)

/-- Modelled from the spec: the structured switching-activity equality
comparator (`test.saif_identical`; not in the fragment).  Asserts exact
equality of the per-signal counter set of the two parsed artifacts,
tolerant of key ordering, intolerant of any numeric mismatch. -/
def saif_identical (a b : SaifActivity) : ComparisonResult :=
  if (a : Multiset (String × SaifCounters)) = (b : Multiset (String × SaifCounters))
  then .pass else .MISMATCH

/-- A test case as declared by one test script: declared scenario labels,
ordered pipeline stages (with per-stage expected-failure markers), and
the declared post-run assertion slots.  `assertionCount` stands for the
declared assertions (their evaluated `ComparisonResult`s are supplied by
the environment, since they read produced artifact files). -/
structure TestCase where
  scenarios : List String
  stages : List StageSpec
  assertionCount : Nat
deriving DecidableEq, Repr

/-- Modelled from the spec: the Scenario Resolver (not in the fragment).
Given a TestCase's declared scenario labels and the run's active-scenario
configuration, produce the subset of scenarios to actually execute;
selection is a set intersection. -/
def resolveScenarios (declared active : List String) : List String :=
  declared.filter (fun s => active.contains s)

/-- The per-TestCase rolled-up verdict. -/
inductive Outcome
  | PASSED
  | FAILED
  | SKIPPED
  | ERRORED
deriving DecidableEq, Repr

/-- The environment a TestCase's run observes: the Toolchain Invoker's
result for each (scenario, stage kind), and the evaluated results of the
declared post-run assertions (which read artifact files produced by the
pipeline). -/
structure TestEnv where
  invoke : String → StageKind → InvokeResult
  assertionResults : List ComparisonResult

/-- The result of one concrete ScenarioRun: the stages that ran with
their classifications, and the pipeline's terminal state. -/
abbrev ScenarioRunResult := List (StageSpec × StageClass) × PipeEnd

/-- Whether some stage of a ScenarioRun hit an infrastructure error. -/
def hasInfraError (r : ScenarioRunResult) : Bool :=
  r.1.any (fun p => p.2 = StageClass.INFRASTRUCTURE_ERROR)

/-- Modelled from the spec: the Test Case Controller's outcome
classification (not in the fragment).  SKIPPED if scenario resolution
yielded no ScenarioRun; ERRORED on an infrastructure fault, reported
distinctly from FAILED; PASSED only if every resolved ScenarioRun reached
its pipeline's DONE state and every declared assertion's ComparisonResult
is a pass; otherwise FAILED. -/
def classifyOutcome (runs : List ScenarioRunResult)
    (assertionResults : List ComparisonResult) : Outcome :=
  if runs.isEmpty then .SKIPPED
  else if runs.any hasInfraError then .ERRORED
  else if runs.all (fun r => r.2 = PipeEnd.DONE) &&
          assertionResults.all (fun c => c.isPass) then .PASSED
  else .FAILED

/-- Modelled from the spec: one TestCase's full lifecycle under the Test
Case Controller (not in the fragment): resolve scenarios, run the
pipeline for each resolved ScenarioRun, evaluate the declared post-run
assertions after the pipeline completes, classify the outcome.  Also
returns the total number of toolchain subprocess invocations performed,
to express "no pipeline work performed". -/
def runTestCase (env : TestEnv) (active : List String) (tc : TestCase) :
    Outcome × Nat :=
  let scens := resolveScenarios tc.scenarios active
  let runs := scens.map (fun sc => runPipeline (env.invoke sc) tc.stages)
  let invocations := (runs.map (fun r => r.1.length)).sum
  (classifyOutcome runs env.assertionResults, invocations)

/-- Modelled from the spec: the Scheduler/Aggregator (not in the
fragment).  The worker pool drains the selected TestCases in some
completion order given by `schedule` (a list of indices into `tcs`); each
TestCase's controller runs against its own exclusively-owned environment
`envs i`; each completed outcome is appended to the aggregate report.
Sequential execution is the schedule `List.range tcs.length`; a
concurrent execution completes the same TestCases in some permuted
order. -/
def runScheduler (envs : Nat → TestEnv) (active : List String)
    (tcs : List TestCase) (schedule : List Nat) : List (Nat × Outcome) :=
  schedule.filterMap (fun i =>
    (tcs.get? i).map (fun tc => (i, (runTestCase (envs i) active tc).1)))

/-- Modelled from the spec: the run-level exit status computed by the
Aggregator (not in the fragment): non-zero if any TestCase is FAILED or
ERRORED, zero otherwise. -/
def exitStatus (outcomes : List Outcome) : Nat :=
  if outcomes.any (fun o => o = Outcome.FAILED || o = Outcome.ERRORED)
  then 1 else 0

/-! ## The four test scripts of the fragment, embedded as declarations -/

/-- `t_no_trace_top.py`: scenarios `vlt_all`; compile, then execute
(neither expected to fail); one post-run assertion (`vcd_identical`). -/
def t_no_trace_top : TestCase :=
  { scenarios := ["vlt_all"]
    stages := [⟨.compile, false⟩, ⟨.execute, false⟩]
    assertionCount := 1 }

/-- `t_opt_localize_max_size_1.py`: scenarios `vlt`; compile, then
execute; one post-run assertion (`file_grep` with expected value "4"). -/
def t_opt_localize_max_size_1 : TestCase :=
  { scenarios := ["vlt"]
    stages := [⟨.compile, false⟩, ⟨.execute, false⟩]
    assertionCount := 1 }

/-- `t_sarif_output.py`: scenarios `vlt`; a single lint stage; one
post-run assertion (`file_grep` with no expected value). -/
def t_sarif_output : TestCase :=
  { scenarios := ["vlt"]
    stages := [⟨.lint, false⟩]
    assertionCount := 1 }

/-- `t_trace_abort_saif.py`: scenarios `vlt_all`; compile, then execute
declared expected-to-fail (`test.execute(fails=True)`); one post-run
assertion (`saif_identical` against the golden reference). -/
def t_trace_abort_saif : TestCase :=
  { scenarios := ["vlt_all"]
    stages := [⟨.compile, false⟩, ⟨.execute, true⟩]
    assertionCount := 1 }

/-! ## Theorems -/

/-- C4: for text pattern extraction with an expected literal value, the
ComparisonResult is NO_MATCH when the regular expression matches nowhere,
MISMATCH when a match exists but the specified capture group's value
differs from the expected literal, and a pass when the captured value
equals the expected literal. -/
theorem file_grep_classification (capture : Option String) (e : String) :
    (capture = none → file_grep capture (some e) = ComparisonResult.NO_MATCH) ∧
    (∀ v, capture = some v → v ≠ e →
      file_grep capture (some e) = ComparisonResult.MISMATCH) ∧
    (capture = some e → file_grep capture (some e) = ComparisonResult.pass) := by
  refine ⟨fun h => ?_, fun v hv hne => ?_, fun h => ?_⟩
  · subst h; rfl
  · subst hv; simp [file_grep, hne]
  · subst h; simp [file_grep]

/-- Witness for C4: a capture of "3" against an expected "7" is a
MISMATCH. -/
theorem file_grep_classification_witness :
    file_grep (some "3") (some "7") = ComparisonResult.MISMATCH :=
  (file_grep_classification (some "3") "7").2.1 "3" rfl (by decide)

/-- C10: for text pattern extraction with no expected value, the
assertion passes exactly when the regular expression matches somewhere in
the artifact file, and no capture-group-to-literal comparison is
performed (every captured value passes). -/
theorem file_grep_no_expected (capture : Option String) :
    (file_grep capture none = ComparisonResult.pass ↔ capture ≠ none) ∧
    (∀ v, file_grep (some v) none = ComparisonResult.pass) := by
  refine ⟨?_, fun v => rfl⟩
  cases capture <;> simp [file_grep]

/-- Witness for C10: a match with any captured value passes, and a
missing match does not. -/
theorem file_grep_no_expected_witness :
    file_grep (some "t_sarif.v") none = ComparisonResult.pass ∧
    file_grep none none ≠ ComparisonResult.pass :=
  ⟨(file_grep_no_expected (some "t_sarif.v")).2 "t_sarif.v",
   fun h => ((file_grep_no_expected none).1.mp h) rfl⟩

/-- C5: structured waveform-trace comparison of a trace against itself,
or against a trace with identical signal hierarchy and identical
(time, signal, value) change events but arbitrary (possibly different)
embedded wall-clock date and version metadata, always yields a pass. -/
theorem vcd_identical_pass (a b : VcdTrace)
    (hh : a.hierarchy = b.hierarchy) (he : a.events = b.events) :
    vcd_identical a b = ComparisonResult.pass ∧
    vcd_identical a a = ComparisonResult.pass := by
  constructor <;> simp [vcd_identical, hh, he]

/-- Witness for C5: two traces with identical activity but different
date/version metadata compare as a pass. -/
theorem vcd_identical_pass_witness :
    vcd_identical
      ⟨"Mon Apr 1 10:00:00 2024", "Verilator 5.037",
        ["top.clk"], [(0, "top.clk", "1"), (5, "top.clk", "0")]⟩
      ⟨"Tue Apr 2 11:30:00 2024", "Verilator 5.038",
        ["top.clk"], [(0, "top.clk", "1"), (5, "top.clk", "0")]⟩
      = ComparisonResult.pass :=
  (vcd_identical_pass _ _ rfl rfl).1

/-- C8: the run-level exit status is zero exactly when no TestCase's
Outcome is FAILED or ERRORED, and a SKIPPED outcome inserted anywhere
never affects the exit status. -/
theorem exit_status_spec (outcomes l₁ l₂ : List Outcome) :
    (exitStatus outcomes = 0 ↔
      ∀ o ∈ outcomes, o ≠ Outcome.FAILED ∧ o ≠ Outcome.ERRORED) ∧
    exitStatus (l₁ ++ Outcome.SKIPPED :: l₂) = exitStatus (l₁ ++ l₂) := by
  constructor
  · by_cases h : outcomes.any (fun o => o = Outcome.FAILED || o = Outcome.ERRORED)
    · simp only [exitStatus, h, if_true]
      simp only [List.any_eq_true, decide_eq_true_eq, Bool.or_eq_true] at h
      obtain ⟨o, ho, hcase⟩ := h
      constructor
      · intro h1; exact absurd h1 one_ne_zero
      · intro hall
        rcases hcase with h' | h' <;>
          exact absurd h' (by rcases hall o ho with ⟨h1, h2⟩; first | exact h1 | exact h2)
    · simp only [exitStatus, h, if_false]
      simp only [List.any_eq_true, decide_eq_true_eq, Bool.or_eq_true, not_exists] at h
      constructor
      · intro _ o ho
        constructor <;> intro hc <;> exact h o ⟨ho, by simp [hc]⟩
      · intro _; rfl
  · simp [exitStatus, List.any_append]

/-- Witness for C8: a run with one PASSED and one SKIPPED TestCase exits
with status zero. -/
theorem exit_status_spec_witness :
    exitStatus [Outcome.PASSED, Outcome.SKIPPED] = 0 :=
  (exit_status_spec [Outcome.PASSED, Outcome.SKIPPED] [] []).1.mpr (by decide)

/-- C1: for a stage declared expected-to-fail, a subprocess exit status
of 0 is classified UNEXPECTED_STAGE_FAILURE (and the pipeline aborts),
while a nonzero exit status is classified as the expected failure (the
success condition), the pipeline reaching DONE. -/
theorem expected_fail_stage (invoke : StageKind → InvokeResult)
    (s : StageSpec) (rest : List StageSpec) (status : Nat)
    (hf : s.expectsFail = true) (hi : invoke s.kind = .exited status) :
    (status = 0 →
      classifyStage s.expectsFail (invoke s.kind) =
        StageClass.UNEXPECTED_STAGE_FAILURE ∧
      (runPipeline invoke (s :: rest)).2 = PipeEnd.ABORTED) ∧
    (status ≠ 0 →
      classifyStage s.expectsFail (invoke s.kind) =
        StageClass.EXPECTED_FAILURE ∧
      (runPipeline invoke (s :: rest)).2 = PipeEnd.DONE) := by
  constructor
  · intro h0
    have hcls : classifyStage s.expectsFail (invoke s.kind) =
        StageClass.UNEXPECTED_STAGE_FAILURE := by
      simp [classifyStage, hi, hf, h0]
    exact ⟨hcls, by simp [runPipeline, hcls]⟩
  · intro hne
    have hcls : classifyStage s.expectsFail (invoke s.kind) =
        StageClass.EXPECTED_FAILURE := by
      simp [classifyStage, hi, hf, hne]
    exact ⟨hcls, by simp [runPipeline, hcls]⟩

/-- Witness for C1: the `t_trace_abort_saif` execute stage, declared
expected-to-fail, with the produced program exiting with status 1,
classifies as EXPECTED_FAILURE and the pipeline reaches DONE. -/
theorem expected_fail_stage_witness :
    classifyStage true (InvokeResult.exited 1) =
      StageClass.EXPECTED_FAILURE ∧
    (runPipeline (fun _ => InvokeResult.exited 1)
      [⟨StageKind.execute, true⟩]).2 = PipeEnd.DONE :=
  (expected_fail_stage (fun _ => InvokeResult.exited 1)
    ⟨StageKind.execute, true⟩ [] 1 rfl rfl).2 (by decide)

/-- C2: a TestCase whose declared scenario labels have empty intersection
with the active scenario selection resolves to Outcome SKIPPED with zero
toolchain subprocess invocations. -/
theorem skipped_no_work (env : TestEnv) (active : List String)
    (tc : TestCase) (h : ∀ s ∈ tc.scenarios, s ∉ active) :
    runTestCase env active tc = (Outcome.SKIPPED, 0) := by
  have hres : resolveScenarios tc.scenarios active = [] := by
    rw [resolveScenarios, List.filter_eq_nil_iff]
    intro s hs
    simpa using h s hs
  simp [runTestCase, hres, classifyOutcome]

/-- Witness for C2: `t_sarif_output` declares only scenario `vlt`; a run
whose active selection is `{dist}` skips it with no subprocess work. -/
theorem skipped_no_work_witness :
    runTestCase ⟨fun _ _ => InvokeResult.exited 0, []⟩ ["dist"]
      t_sarif_output = (Outcome.SKIPPED, 0) :=
  skipped_no_work _ ["dist"] t_sarif_output (by decide)

/-- Helper for C3: every stage result other than the last one in a
pipeline's run is classified SUCCESS. -/
theorem runPipeline_dropLast_success (invoke : StageKind → InvokeResult) :
    ∀ stages : List StageSpec,
      ∀ p ∈ ((runPipeline invoke stages).1).dropLast,
        p.2 = StageClass.SUCCESS := by
  intro stages
  induction stages with
  | nil => intro p hp; simp [runPipeline] at hp
  | cons s rest ih =>
    intro p hp
    rcases hcls : classifyStage s.expectsFail (invoke s.kind) with h | h | h | h <;>
      simp only [runPipeline, hcls, List.dropLast_single] at hp
    · rcases htail : (runPipeline invoke rest).1 with _ | ⟨q, qs⟩
      · simp [htail] at hp
      · rw [htail, List.dropLast_cons₂, List.mem_cons] at hp
        rcases hp with hp | hp
        · rw [hp]
        · exact ih p (by rw [htail]; exact hp)
    · exact absurd hp (List.not_mem_nil p)
    · exact absurd hp (List.not_mem_nil p)
    · exact absurd hp (List.not_mem_nil p)

/-- C3: in every pipeline a later stage runs only if the prior stage was
classified SUCCESS (so after an expected failure no further stage
executes), and the lint-only pipeline of `t_sarif_output` runs exactly
one stage, which is the lint stage — never a build or execute stage. -/
theorem pipeline_sequencing (invoke : StageKind → InvokeResult)
    (stages : List StageSpec) :
    (∀ p ∈ ((runPipeline invoke stages).1).dropLast,
      p.2 = StageClass.SUCCESS) ∧
    ((runPipeline invoke t_sarif_output.stages).1.length = 1 ∧
      ∀ r ∈ (runPipeline invoke t_sarif_output.stages).1,
        r.1.kind = StageKind.lint) := by
  refine ⟨runPipeline_dropLast_success invoke stages, ?_, ?_⟩ <;>
    rcases hcls : classifyStage false (invoke StageKind.lint) with h | h | h | h <;>
      simp [t_sarif_output, runPipeline, hcls]

/-- Witness for C3: with a failing lint invocation, `t_sarif_output`'s
pipeline ran exactly one stage and it was the lint stage. -/
theorem pipeline_sequencing_witness :
    (runPipeline (fun _ => InvokeResult.exited 1)
      t_sarif_output.stages).1.length = 1 ∧
    ∀ r ∈ (runPipeline (fun _ => InvokeResult.exited 1)
      t_sarif_output.stages).1, r.1.kind = StageKind.lint :=
  (pipeline_sequencing (fun _ => InvokeResult.exited 1) []).2

/-- Helper: `saif_identical` passes exactly when the two parsed activity
artifacts hold the same multiset of per-signal counter entries. -/
theorem saif_identical_pass_iff (a b : SaifActivity) :
    saif_identical a b = ComparisonResult.pass ↔
      (a : Multiset (String × SaifCounters)) = (b : Multiset (String × SaifCounters)) := by
  constructor
  · intro h
    by_contra hne
    simp [saif_identical, hne] at h
  · intro h
    simp [saif_identical, h]

/-- C6: switching-activity comparison passes exactly when the per-signal
counter entry sets of the two artifacts are equal as sets (for duplicate
free parses); reordering the keys of one artifact never changes the
result; and any numeric difference in any signal's counters yields a
failure. -/
theorem saif_identical_set_semantics (a b a' rest : SaifActivity)
    (key : String) (c c' : SaifCounters)
    (hna : a.Nodup) (hnb : b.Nodup) (hperm : a.Perm a') (hcc : c ≠ c') :
    (saif_identical a b = ComparisonResult.pass ↔ a.toFinset = b.toFinset) ∧
    saif_identical a' b = saif_identical a b ∧
    saif_identical ((key, c) :: rest) ((key, c') :: rest) =
      ComparisonResult.MISMATCH := by
  refine ⟨?_, ?_, ?_⟩
  · rw [saif_identical_pass_iff, Multiset.coe_eq_coe]
    constructor
    · exact fun h => List.toFinset_eq_of_perm _ _ h
    · exact fun h => List.perm_of_nodup_nodup_toFinset_eq hna hnb h
  · have hco : (a' : Multiset (String × SaifCounters)) = (a : Multiset (String × SaifCounters)) :=
      Multiset.coe_eq_coe.mpr hperm.symm
    simp [saif_identical, hco]
  · have hne : ((key, c) :: rest : Multiset (String × SaifCounters)) ≠
        ((key, c') :: rest : Multiset (String × SaifCounters)) := by
      intro h
      rw [← Multiset.cons_coe, ← Multiset.cons_coe,
        Multiset.cons_inj_left] at h
      exact hcc (congrArg Prod.snd h)
    simp [saif_identical, hne]

/-- Witness for C6: reordering the two signals of an artifact still
passes against the original order, while bumping one toggle count fails. -/
theorem saif_identical_set_semantics_witness :
    (saif_identical [("top.a", ⟨1, 2, 0, 3⟩), ("top.b", ⟨4, 5, 0, 6⟩)]
        [("top.b", ⟨4, 5, 0, 6⟩), ("top.a", ⟨1, 2, 0, 3⟩)] =
      ComparisonResult.pass) ∧
    saif_identical [("top.a", ⟨1, 2, 0, 3⟩)] [("top.a", ⟨1, 2, 0, 7⟩)] =
      ComparisonResult.MISMATCH := by
  have h := saif_identical_set_semantics
    [("top.a", ⟨1, 2, 0, 3⟩), ("top.b", ⟨4, 5, 0, 6⟩)]
    [("top.b", ⟨4, 5, 0, 6⟩), ("top.a", ⟨1, 2, 0, 3⟩)]
    [("top.b", ⟨4, 5, 0, 6⟩), ("top.a", ⟨1, 2, 0, 3⟩)]
    [] "top.a" ⟨1, 2, 0, 3⟩ ⟨1, 2, 0, 7⟩
    (by decide) (by decide) (List.Perm.swap _ _ _) (by decide)
  exact ⟨h.1.mpr (by decide), h.2.2⟩

/-- C9: with the `t_trace_abort_saif` declaration (compile, then execute
declared expected-to-fail), a run where compilation succeeds, the
produced program exits nonzero, and the post-run switching-activity
comparison against the golden reference passes, rolls up to Outcome
PASSED, the execute stage classified EXPECTED_FAILURE. -/
theorem expected_fail_then_assertions (env : TestEnv) (status : Nat)
    (produced golden : SaifActivity)
    (hc : env.invoke "vlt_all" StageKind.compile = InvokeResult.exited 0)
    (he : env.invoke "vlt_all" StageKind.execute = InvokeResult.exited status)
    (hs : status ≠ 0)
    (ha : env.assertionResults = [saif_identical produced golden])
    (hpass : saif_identical produced golden = ComparisonResult.pass) :
    (runTestCase env ["vlt_all"] t_trace_abort_saif).1 = Outcome.PASSED ∧
    (runPipeline (env.invoke "vlt_all") t_trace_abort_saif.stages).1 =
      [(⟨StageKind.compile, false⟩, StageClass.SUCCESS),
       (⟨StageKind.execute, true⟩, StageClass.EXPECTED_FAILURE)] := by
  have hpipe : runPipeline (env.invoke "vlt_all") t_trace_abort_saif.stages =
      ([(⟨StageKind.compile, false⟩, StageClass.SUCCESS),
        (⟨StageKind.execute, true⟩, StageClass.EXPECTED_FAILURE)],
       PipeEnd.DONE) := by
    simp [t_trace_abort_saif, runPipeline, classifyStage, hc, he, hs]
  refine ⟨?_, by rw [hpipe]⟩
  have hres : resolveScenarios t_trace_abort_saif.scenarios ["vlt_all"] =
      ["vlt_all"] := rfl
  simp [runTestCase, hres, hpipe, classifyOutcome, hasInfraError, ha,
    hpass, ComparisonResult.isPass]

/-- Witness for C9: a concrete such run — compile exits 0, execute exits
1, the produced activity artifact equals the golden one — is PASSED with
the execute stage an EXPECTED_FAILURE. -/
theorem expected_fail_then_assertions_witness :
    (runTestCase
      ⟨fun _ k => match k with
        | StageKind.execute => InvokeResult.exited 1
        | _ => InvokeResult.exited 0,
       [saif_identical [("top.sig", ⟨7, 3, 0, 2⟩)] [("top.sig", ⟨7, 3, 0, 2⟩)]]⟩
      ["vlt_all"] t_trace_abort_saif).1 = Outcome.PASSED :=
  (expected_fail_then_assertions _ 1
    [("top.sig", ⟨7, 3, 0, 2⟩)] [("top.sig", ⟨7, 3, 0, 2⟩)]
    rfl rfl (by decide) rfl (by decide)).1

/-- Helper for C7: in any completion order that reaches TestCase `i`,
the aggregate report records for `i` exactly the outcome computed by its
own controller from its own environment. -/
theorem runScheduler_lookup (envs : Nat → TestEnv) (active : List String)
    (tcs : List TestCase) (i : Nat) (tc : TestCase)
    (hget : tcs.get? i = some tc) :
    ∀ schedule : List Nat, i ∈ schedule →
      (runScheduler envs active tcs schedule).lookup i =
        some (runTestCase (envs i) active tc).1 := by
  intro schedule
  induction schedule with
  | nil => intro h; exact absurd h (List.not_mem_nil i)
  | cons j rest ih =>
    intro hmem
    rcases hj : tcs.get? j with _ | tc'
    · have hne : i ≠ j := by
        intro h
        rw [h, hj] at hget
        exact Option.noConfusion hget
      have hrest : i ∈ rest := by
        rcases List.mem_cons.mp hmem with h | h
        · exact absurd h hne
        · exact h
      simp only [runScheduler, List.filterMap_cons, hj, Option.map_none']
      exact ih hrest
    · simp only [runScheduler, List.filterMap_cons, hj, Option.map_some']
      by_cases hij : i = j
      · subst hij
        rw [hj] at hget
        have : tc' = tc := Option.some.inj hget
        subst this
        simp [List.lookup]
      · have hrest : i ∈ rest := by
          rcases List.mem_cons.mp hmem with h | h
          · exact absurd h hij
          · exact h
        rw [List.lookup_cons]
        have hb : (i == j) = false := by simp [hij]
        rw [hb]
        exact ih hrest

/-- C7: for any concurrent completion order (any permutation of the
sequential processing order), the aggregate report assigns each TestCase
the outcome computed purely from its own environment and declaration, and
so agrees per test with the sequential run. -/
theorem scheduler_order_independence (envs : Nat → TestEnv)
    (active : List String) (tcs : List TestCase) (schedule : List Nat)
    (hperm : schedule.Perm (List.range tcs.length))
    (i : Nat) (tc : TestCase) (hget : tcs.get? i = some tc) :
    (runScheduler envs active tcs schedule).lookup i =
      some (runTestCase (envs i) active tc).1 ∧
    (runScheduler envs active tcs schedule).lookup i =
      (runScheduler envs active tcs (List.range tcs.length)).lookup i := by
  have hlen : i < tcs.length := by
    by_contra h
    rw [List.get?_eq_none.mpr (le_of_not_lt h)] at hget
    exact Option.noConfusion hget
  have hrange : i ∈ List.range tcs.length := List.mem_range.mpr hlen
  have hsched : i ∈ schedule := hperm.mem_iff.mpr hrange
  have h1 := runScheduler_lookup envs active tcs i tc hget schedule hsched
  have h2 := runScheduler_lookup envs active tcs i tc hget
    (List.range tcs.length) hrange
  exact ⟨h1, h1.trans h2.symm⟩

/-- Witness for C7: two independent TestCases completed in reversed
order produce the same recorded outcome for TestCase 0 as the sequential
order. -/
theorem scheduler_order_independence_witness :
    (runScheduler (fun _ => ⟨fun _ _ => InvokeResult.exited 0, []⟩) ["vlt"]
      [t_sarif_output, t_trace_abort_saif] [1, 0]).lookup 0 =
      (runScheduler (fun _ => ⟨fun _ _ => InvokeResult.exited 0, []⟩) ["vlt"]
        [t_sarif_output, t_trace_abort_saif] (List.range 2)).lookup 0 :=
  (scheduler_order_independence (fun _ => ⟨fun _ _ => InvokeResult.exited 0, []⟩)
    ["vlt"] [t_sarif_output, t_trace_abort_saif] [1, 0] (by decide)
    0 t_sarif_output rfl).2

end VlTest
